import Mathlib

/-!
Shallow embedding of the HTTP retry layer of `mhpenta/vmuser`
(`src/ext/httpext/requests/`): the retry engine `RetryRequest.GetResponse`
(`sec_request.go`), the network-outage probe (`network_down_detection.go`),
the byte-fetch wrapper `fetchContentsAsBytes`, the client-side redirect
chaser (`RedirectedRequest`), and the JSONL stream fetcher
(`jsonl_stream_fetcher.go`).

External I/O (the HTTP transport, body reads, JSON unmarshalling, the
probe requests, context cancellation) is supplied by oracle values in an
environment; the control flow acting on those values is translated
statement-by-statement from the Go source.  Durations are modelled in
abstract ticks (`Nat`); each open response body is identified by a `Nat`
id so that body-close behaviour can be observed.
-/

namespace VmUser

/-! ## Go string helpers (`strings.Contains`, `strings.Trim`, prefixes) -/

/-- Does `s` start with `pat`?  (char lists). -/
def startsWithList : List Char → List Char → Bool
  | _, [] => true
  | [], _ :: _ => false
  | c :: cs, p :: ps => c = p && startsWithList cs ps

/-- Does `needle` occur as a contiguous substring?  (char lists). -/
def listContainsSub (needle : List Char) : List Char → Bool
  | [] => startsWithList [] needle
  | c :: cs => startsWithList (c :: cs) needle || listContainsSub needle cs

/-- Go `strings.Contains(s, sub)`. -/
def goContains (s sub : String) : Bool :=
  listContainsSub sub.data s.data

/-- Go `strings.HasPrefix(s, pat)`. -/
def goStartsWith (s pat : String) : Bool :=
  startsWithList s.data pat.data

/-- Go `strings.Trim(s, "\"")`: strip leading and trailing `"` characters. -/
def goTrimQuotes (s : List Char) : List Char :=
  ((s.dropWhile (· = '"')).reverse.dropWhile (· = '"')).reverse

/-! ## Errors and transport outcomes -/

/-- A Go `error` value as the retry code observes it: its rendered message
plus the results of `errors.Is(err, context.Canceled)` and
`errors.Is(err, context.DeadlineExceeded)`. -/
structure GoError where
  msg : String
  isCanceled : Bool := false
  isDeadlineExceeded : Bool := false
  deriving DecidableEq, Repr

/-- An HTTP response as the retry loop inspects it; `bodyId` identifies the
open body that arrived with it. -/
structure HttpResponse where
  statusCode : Nat
  bodyId : Nat
  deriving DecidableEq, Repr

/-- Outcome of one `client.Do` call (`createRequestAndGetResponse`):
either a transport error (`resp == nil`) or a response with a status code. -/
inductive AttemptResult where
  | failure (e : GoError)
  | success (status : Nat)
  deriving DecidableEq, Repr

/-! ## Network-outage detection (`network_down_detection.go`) -/

/-- `IsPossibleNetworkOrDNSIssueErr(err, url)` (lines 13-23): true when the
error text contains both `"dial tcp"` and `"i/o timeout"`. -/
def isPossibleNetworkOrDNSIssueErr : Option GoError → Bool
  | none => false
  | some e => goContains e.msg "dial tcp" && goContains e.msg "i/o timeout"

/-- The fixed probe URL list of `isNetworkAvailableCheck` (lines 41-46). -/
def probeURLs : List String :=
  ["https://www.google.com", "https://wikipedia.org",
   "https://twitter.com/home", "https://www.facebook.com"]

/-- `isNetworkAvailableCheck` (lines 40-71): issues one GET per probe URL
concurrently and returns `true` as soon as any probe succeeds, `false`
only when every probe has failed.  `probe` is the oracle giving each
probe request's success; the channel arrival order does not affect the
boolean result, which is `true` iff some probe succeeded. -/
def isNetworkAvailableCheck (probe : String → Bool) : Bool :=
  probeURLs.any probe

/-- `IsNetworkUnavailable(err, url)` (lines 26-31), exactly as written:
`false` if the error does not look like a network/DNS issue, otherwise the
value of `isNetworkAvailableCheck()` — note the Go code returns the
availability check's result without negating it. -/
def isNetworkUnavailable (err : Option GoError) (probe : String → Bool) : Bool :=
  if !isPossibleNetworkOrDNSIssueErr err then false
  else isNetworkAvailableCheck probe

/-! ## Retry configuration (`RetryRequest` struct, sec_request.go 101-117) -/

/-- The configuration fields of `RetryRequest` that drive `GetResponse`.
Durations are in abstract ticks. -/
structure RetryConfig where
  maxRetries : Nat
  backoffFactor : Nat
  isRateLimited : Bool := false
  noRetry404 : Bool := false
  noRetry422 : Bool := false
  longBackOffOn429 : Nat := 0
  resolveNetworkUnavailable : Bool := false
  networkUnavailableBackOff : Nat := 0
  networkUnavailableMaxWait : Nat := 0
  deriving DecidableEq, Repr

/-! ## Backoff duration (`backoff`, sec_request.go 637-682) -/

/-- The duration computed by `backoff` before it waits (lines 644-651):
`backoffFactor * (1 << attempt)`, overridden by `longBackOffOn429` when the
last response is non-nil with status 429 and the long backoff strictly
exceeds the computed duration.  `respStatus` is the status of the last
response (`none` when `resp == nil`). -/
def backoffDuration (r : RetryConfig) (attempt : Nat) (respStatus : Option Nat) : Nat :=
  let d := r.backoffFactor * (1 <<< attempt)
  if respStatus = some 429 ∧ r.longBackOffOn429 > d then r.longBackOffOn429 else d

/-! ## Timed suspend points

Each suspend point is modelled with an explicit clock `now` and an optional
context-cancellation instant `cancelAt`. -/

/-- A Go `select` racing a timer of duration `d` against `ctx.Done()`:
returns the instant it unblocks and whether the cancellation branch fired.
Cancellation wins exactly when it happens strictly before the timer. -/
def selectTimerOrCtxDone (now d : Nat) (cancelAt : Option Nat) : Nat × Bool :=
  match cancelAt with
  | some t => if t < now + d then (t, true) else (now + d, false)
  | none => (now + d, false)

/-- Go `time.Sleep(d)`: always unblocks at `now + d`; it does not observe
the context at all (the `cancelAt` argument is ignored, as in the source). -/
def timeSleep (now d : Nat) (_cancelAt : Option Nat) : Nat :=
  now + d

/-- The wait of `backoff` (sec_request.go 673-681): a timer for
`backoffDuration` raced against `ctx.Done()`; on cancellation it returns
`ctx.Err()` (a context-canceled error). -/
def backoffWait (r : RetryConfig) (attempt : Nat) (respStatus : Option Nat)
    (now : Nat) (cancelAt : Option Nat) : Nat × Bool :=
  selectTimerOrCtxDone now (backoffDuration r attempt respStatus) cancelAt

/-- The sleep inside the network-outage recovery loop (sec_request.go
276-277): `time.Sleep(min(remainingTime, networkUnavailableBackOff))` —
a plain sleep that ignores the context. -/
def recoverySleep (r : RetryConfig) (remaining now : Nat) (cancelAt : Option Nat) : Nat :=
  timeSleep now (min remaining r.networkUnavailableBackOff) cancelAt

/-- The inter-poll sleep of the JSONL stream fetcher
(jsonl_stream_fetcher.go 138-143): `select` on `time.After(PollInterval)`
versus `ctx.Done()`. -/
def pollSleep (pollInterval now : Nat) (cancelAt : Option Nat) : Nat × Bool :=
  selectTimerOrCtxDone now pollInterval cancelAt

/-- Modelled from the spec: the rate-limiter wait (`limiter.Wait(ctx)` at
sec_request.go 230, implemented in the external `golang.org/x/time/rate`
package, which is not part of this repository's sources).  Per the spec,
the limiter wait observes the governing cancellation signal and returns
promptly with an error when the context is canceled during the wait;
`waitNeeded` is the delay the token bucket would impose. -/
def limiterWait (now waitNeeded : Nat) (cancelAt : Option Nat) : Nat × Bool :=
  selectTimerOrCtxDone now waitNeeded cancelAt

/-! ## `RetryRequest.GetResponse` (sec_request.go 226-334)

The loop is driven by an environment of oracle values: the transport
outcome of each main-loop attempt, whether the context got canceled while
that attempt's backoff was waiting, the probe outcomes, the outcome
sequence of the recovery loop's attempts, and whether the limiter wait
failed. -/

/-- The errors `GetResponse` (and the fetch wrappers) can return. -/
inductive RErr where
  /-- `fmt.Errorf("%w: %s", ErrNotFoundNoRetry, url)` (line 243). -/
  | notFoundNoRetry (url : String)
  /-- `context.Canceled` (line 263) or `ctx.Err()` from `backoff` (line 678). -/
  | contextCanceled
  /-- `ErrNetworkUnavailableAfterMaxWait` (line 273). -/
  | networkUnavailableAfterMaxWait
  /-- `&StatusCodeError{StatusCode, URL, Message}` (lines 282-293). -/
  | statusCode (code : Nat) (url msg : String)
  /-- A transport error returned verbatim (line 312). -/
  | transport (e : GoError)
  /-- `fmt.Errorf("max retries reached: last error: %w", err)` (line 333);
  `err` is the last transport error, `none` when it was `nil`. -/
  | maxRetriesReached (last : Option GoError)
  /-- The error of `limiter.Wait` returned at line 232. -/
  | limiterWaitFailed (e : GoError)
  deriving DecidableEq, Repr

/-- One main-loop attempt's oracle data: the transport outcome and whether
the context gets canceled during the backoff wait that would follow it. -/
structure MainEntry where
  result : AttemptResult
  backoffCanceled : Bool := false
  deriving DecidableEq, Repr

/-- One recovery-loop attempt's oracle data: the transport outcome and the
wall-clock ticks the attempt itself consumes (counted by `time.Since`). -/
structure RecEntry where
  result : AttemptResult
  attemptElapsed : Nat := 0
  deriving DecidableEq, Repr

/-- The oracle environment of one `GetResponse` call. -/
structure Env where
  attempt : Nat → MainEntry
  probe : String → Bool := fun _ => false
  recTrace : List RecEntry := []
  limiterWaitErr : Option GoError := none

/-- Counters threaded through the loops: the next fresh body id, the
attempt counts of the main and recovery loops, and the ids of the
response bodies closed so far. -/
structure Acc where
  nextId : Nat := 0
  mainAttempts : Nat := 0
  recAttempts : Nat := 0
  closed : List Nat := []
  deriving DecidableEq, Repr

/-- Result of a modelled `GetResponse` run.  `result = some (resp?, err?)`
is the returned pair; `result = none` means the finite oracle trace of the
recovery loop was exhausted before the code returned (a model artifact,
since the recovery loop in the source can iterate unboundedly). -/
structure RunOut where
  result : Option (Option HttpResponse × Option RErr)
  mainAttempts : Nat
  recAttempts : Nat
  closed : List Nat
  deriving DecidableEq, Repr

/-- The network-outage recovery loop (sec_request.go 269-315).  Each
iteration: check the remaining budget, sleep `min(remaining, backOff)`
(uncancellable `time.Sleep`), retry the request, return on a policy 404 or
422, on a 2xx, or on a definitively non-network error; otherwise close the
body and loop.  `elapsed` is `time.Since(start)` in ticks. -/
def recoveryLoop (r : RetryConfig) (url : String) :
    List RecEntry → Nat → Acc → RunOut
  | [], elapsed, acc =>
    -- the budget check at the top of the iteration; past it, the finite
    -- oracle trace is exhausted
    if r.networkUnavailableMaxWait ≤ elapsed then
      ⟨some (none, some .networkUnavailableAfterMaxWait),
        acc.mainAttempts, acc.recAttempts, acc.closed⟩
    else ⟨none, acc.mainAttempts, acc.recAttempts, acc.closed⟩
  | e :: rest, elapsed, acc =>
    if r.networkUnavailableMaxWait ≤ elapsed then
      ⟨some (none, some .networkUnavailableAfterMaxWait),
        acc.mainAttempts, acc.recAttempts, acc.closed⟩
    else
        let sleepD := min (r.networkUnavailableMaxWait - elapsed) r.networkUnavailableBackOff
        let elapsedNext := elapsed + sleepD + e.attemptElapsed
        let id := acc.nextId
        let acc1 : Acc := { acc with nextId := id + 1, recAttempts := acc.recAttempts + 1 }
        match e.result with
        | .success st =>
          if st = 404 ∧ r.noRetry404 = true then
            ⟨some (some ⟨st, id⟩, some (.statusCode st url "404 Not Found")),
              acc1.mainAttempts, acc1.recAttempts, acc1.closed⟩
          else if st = 422 ∧ r.noRetry422 = true then
            ⟨some (some ⟨st, id⟩, some (.statusCode st url "422 Unprocessable Entity")),
              acc1.mainAttempts, acc1.recAttempts, acc1.closed⟩
          else if 200 ≤ st ∧ st < 300 then
            ⟨some (some ⟨st, id⟩, none), acc1.mainAttempts, acc1.recAttempts, acc1.closed⟩
          else
            -- cancel(); resp.Body.Close(); err == nil so the non-network check is skipped
            recoveryLoop r url rest elapsedNext { acc1 with closed := id :: acc1.closed }
        | .failure ge =>
          -- resp == nil: nothing to close
          if isPossibleNetworkOrDNSIssueErr (some ge) = false then
            ⟨some (none, some (.transport ge)), acc1.mainAttempts, acc1.recAttempts, acc1.closed⟩
          else
            recoveryLoop r url rest elapsedNext acc1

/-- The main retry loop of `GetResponse` (sec_request.go 239-334),
structurally recursive on the remaining iterations `fuel` with loop index
`i` (invoked with `fuel = maxRetries`, `i = 0`).  `lastErr` is the `err`
variable: the current attempt's transport error (nil after a transport
success). -/
def getResponseAux (r : RetryConfig) (url : String) (env : Env) :
    Nat → Nat → Option GoError → Acc → RunOut
  | 0, _, lastErr, acc =>
    -- loop exhausted: max retries error wrapping the last transport error
    ⟨some (none, some (.maxRetriesReached lastErr)),
      acc.mainAttempts, acc.recAttempts, acc.closed⟩
  | fuel + 1, i, _, acc =>
    let entry := env.attempt i
    let id := acc.nextId
    let acc1 : Acc := { acc with nextId := id + 1, mainAttempts := acc.mainAttempts + 1 }
    match entry.result with
    | .success st =>
      if st = 404 ∧ r.noRetry404 = true then
        -- returned before any close: the body stays open for the caller
        ⟨some (some ⟨st, id⟩, some (.notFoundNoRetry url)),
          acc1.mainAttempts, acc1.recAttempts, acc1.closed⟩
      else if 200 ≤ st ∧ st < 300 then
        ⟨some (some ⟨st, id⟩, none), acc1.mainAttempts, acc1.recAttempts, acc1.closed⟩
      else
        -- non-2xx: cancel(); resp.Body.Close(); err == nil so the
        -- cancellation check and IsNetworkUnavailable(nil, url) are false
        let acc2 : Acc := { acc1 with closed := id :: acc1.closed }
        if r.resolveNetworkUnavailable = true ∧ i = r.maxRetries - 1 then
          getResponseAux r url env fuel (i + 1) none acc2
        else if entry.backoffCanceled = true then
          ⟨some (none, some .contextCanceled), acc2.mainAttempts, acc2.recAttempts, acc2.closed⟩
        else
          getResponseAux r url env fuel (i + 1) none acc2
    | .failure ge =>
      -- transport error: resp == nil, cancel(); nothing to close
      if ge.isCanceled = true ∨ ge.isDeadlineExceeded = true then
        ⟨some (none, some .contextCanceled), acc1.mainAttempts, acc1.recAttempts, acc1.closed⟩
      else if r.resolveNetworkUnavailable = true ∧ i = r.maxRetries - 1 then
        if isNetworkUnavailable (some ge) env.probe = true then
          recoveryLoop r url env.recTrace 0 acc1
        else
          getResponseAux r url env fuel (i + 1) (some ge) acc1
      else if entry.backoffCanceled = true then
        ⟨some (none, some .contextCanceled), acc1.mainAttempts, acc1.recAttempts, acc1.closed⟩
      else
        getResponseAux r url env fuel (i + 1) (some ge) acc1

/-- `GetResponse` (sec_request.go 226-334): the limiter wait, then the
retry loop. -/
def runGetResponse (r : RetryConfig) (url : String) (env : Env) : RunOut :=
  if r.isRateLimited = true then
    match env.limiterWaitErr with
    | some e => ⟨some (none, some (.limiterWaitFailed e)), 0, 0, []⟩
    | none => getResponseAux r url env r.maxRetries 0 none {}
  else
    getResponseAux r url env r.maxRetries 0 none {}

/-! ## `fetchContentsAsBytes` and the fetch variants (sec_request.go 336-440)

`GetContents`, `GetContentsAsBytes` and `GetContentsAsBytesWithContext` all
delegate to `fetchContentsAsBytes`, which loops `attemptFetchContents`
(one `GetResponse` plus a body read) up to `maxRetries` times, retrying
only when the error text contains `"stream error"`. -/

/-- The rendered `Error()` text of a wrapped nil error: `fmt.Errorf` with
the `%w` verb and a nil argument prints `%!w(<nil>)`. -/
def renderGoErrOpt : Option GoError → String
  | none => "%!w(<nil>)"
  | some e => e.msg

/-- The `Error()` text of each modelled error, following the `fmt.Errorf`
format strings and `StatusCodeError.Error` (sec_request.go 81-83). -/
def RErr.render : RErr → String
  | .notFoundNoRetry url => "404 Not Found, not retrying due to NoRetry404 option: " ++ url
  | .contextCanceled => "context canceled"
  | .networkUnavailableAfterMaxWait => "network unavailable after max wait"
  | .statusCode _ url msg => msg ++ ": " ++ url
  | .transport e => e.msg
  | .maxRetriesReached last => "max retries reached: last error: " ++ renderGoErrOpt last
  | .limiterWaitFailed e => e.msg

/-- Outcome of reading and decoding one successful response body
(`io.ReadAll` through the gzip/charset readers, which are external
library code): the bytes, or the read error returned unwrapped. -/
inductive ReadOutcome where
  | ok (bytes : String)
  | fail (e : GoError)
  deriving DecidableEq, Repr

/-- Oracle environment of one `fetchContentsAsBytes` call: the
`GetResponse` environment and body-read outcome of each inner call, and
whether the context gets canceled during the outer backoff wait. -/
structure FetchEnv where
  call : Nat → Env
  readResult : Nat → ReadOutcome := fun _ => .ok ""
  outerBackoffCanceled : Nat → Bool := fun _ => false

/-- Result of a modelled fetch: bytes, a rendered error message (the text
`fetchContentsAsBytes` inspects with `strings.Contains`), or exhaustion
of the oracle trace (model artifact). -/
inductive FetchResult where
  | ok (bytes : String)
  | fail (msg : String)
  | exhausted
  deriving DecidableEq, Repr

/-- `attemptFetchContents` (sec_request.go 363-413) for the `k`-th inner
call: run `GetResponse`; on error wrap it as
`"failed to get a response for the URL %s: %w"`; on a nil response report
it; otherwise read the body via the read oracle. -/
def attemptFetchContents (r : RetryConfig) (url : String) (fenv : FetchEnv)
    (k : Nat) : FetchResult × RunOut :=
  let out := runGetResponse r url (fenv.call k)
  match out.result with
  | none => (.exhausted, out)
  | some (_, some e) =>
    (.fail ("failed to get a response for the URL " ++ url ++ ": " ++ e.render), out)
  | some (none, none) =>
    (.fail ("failed to get a response (nil) for the URL " ++ url), out)
  | some (some _, none) =>
    match fenv.readResult k with
    | .ok bytes => (.ok bytes, out)
    | .fail e => (.fail e.msg, out)

/-- Result of a modelled `fetchContentsAsBytes` run with the HTTP-attempt
counters of all inner `GetResponse` calls summed up. -/
structure FetchOut where
  result : FetchResult
  totalMainAttempts : Nat
  totalRecAttempts : Nat
  calls : Nat
  deriving DecidableEq, Repr

/-- The retry loop of `fetchContentsAsBytes` (sec_request.go 340-360):
retry `attemptFetchContents` while the error text contains
`"stream error"`, up to `maxRetries` outer attempts, backing off
(cancellably) between them. -/
def fetchLoopAux (r : RetryConfig) (url : String) (fenv : FetchEnv) :
    Nat → Nat → String → Nat → Nat → Nat → FetchOut
  | 0, _, lastMsg, tm, tr, calls =>
    ⟨.fail ("max retries reached: last error: " ++ lastMsg), tm, tr, calls⟩
  | fuel + 1, k, _, tm, tr, calls =>
    let out := (attemptFetchContents r url fenv k).2
    let tm1 := tm + out.mainAttempts
    let tr1 := tr + out.recAttempts
    match (attemptFetchContents r url fenv k).1 with
    | .ok bytes => ⟨.ok bytes, tm1, tr1, calls + 1⟩
    | .exhausted => ⟨.exhausted, tm1, tr1, calls + 1⟩
    | .fail msg =>
      if goContains msg "stream error" = true then
        if fenv.outerBackoffCanceled k = true then
          ⟨.fail "context canceled", tm1, tr1, calls + 1⟩
        else
          fetchLoopAux r url fenv fuel (k + 1) msg tm1 tr1 (calls + 1)
      else ⟨.fail msg, tm1, tr1, calls + 1⟩

/-- `fetchContentsAsBytes` (sec_request.go 336-361). -/
def runFetchContentsAsBytes (r : RetryConfig) (url : String) (fenv : FetchEnv) : FetchOut :=
  fetchLoopAux r url fenv r.maxRetries 0 "%!w(<nil>)" 0 0 0

/-! ## Client-side redirect chasing (`RedirectedRequest`, src/unnamed/part_005)

`extractJavaScriptRedirect` applies the Go regexes
`content="0;URL=(.+?)"` and `location\.replace\("(.+?)"\)` in order.  A
lazy group `(.+?)` followed by a literal matches the shortest nonempty
run of non-newline characters whose continuation matches the literal;
the whole match is the leftmost position where pattern and continuation
succeed. -/

/-- Strip `pat` from the front of `s`, or fail. -/
def dropPat : List Char → List Char → Option (List Char)
  | [], s => some s
  | _ :: _, [] => none
  | p :: ps, c :: cs => if c = p then dropPat ps cs else none

/-- Characters before the first `"` (none if a newline or the end comes
first): the continuation of the lazy group of `(.+?)"` after its forced
first character. -/
def scanToQuote : List Char → Option (List Char)
  | [] => none
  | c :: rest =>
    if c = '"' then some []
    else if c = '\n' then none
    else (scanToQuote rest).map (c :: ·)

/-- The lazy group of `(.+?)"`: the shortest nonempty non-newline run
followed by `"` — one forced character, then the characters up to the
next `"`. -/
def captureLazyQuote : List Char → Option (List Char)
  | [] => none
  | c :: rest =>
    if c = '\n' then none
    else (scanToQuote rest).map (c :: ·)

/-- Characters before the first `"` immediately followed by `)` (none on
newline or end): continuation of the lazy group of `(.+?)"\)`. -/
def scanToQuoteParen : List Char → Option (List Char)
  | '"' :: ')' :: _ => some []
  | c :: rest =>
    if c = '\n' then none
    else (scanToQuoteParen rest).map (c :: ·)
  | [] => none

/-- The lazy group of `(.+?)"\)`: shortest nonempty non-newline run
followed by `")`. -/
def captureLazyQuoteParen : List Char → Option (List Char)
  | [] => none
  | c :: rest =>
    if c = '\n' then none
    else (scanToQuoteParen rest).map (c :: ·)

/-- Leftmost match: the first position whose text starts with `pat` and
whose remainder admits the given lazy capture. -/
def findPat (pat : List Char) (capture : List Char → Option (List Char)) :
    List Char → Option (List Char)
  | [] => none
  | c :: rest =>
    match dropPat pat (c :: rest) with
    | some tail =>
      match capture tail with
      | some cap => some cap
      | none => findPat pat capture rest
    | none => findPat pat capture rest

/-- `extractJavaScriptRedirect` (part_005 lines 85-100): try the
meta-refresh pattern, then the `location.replace` pattern; trim `"` from
the captured target. -/
def extractJavaScriptRedirect (content : String) : String × Bool :=
  match findPat "content=\"0;URL=".data captureLazyQuote content.data with
  | some cap => (String.mk (goTrimQuotes cap), true)
  | none =>
    match findPat "location.replace(\"".data captureLazyQuoteParen content.data with
    | some cap => (String.mk (goTrimQuotes cap), true)
    | none => ("", false)

/-- Outcome of one full `GetResponse`-plus-read against a URL in the
redirect chaser: the body bytes and the final URL (`resp.Request.URL`
after transport-level redirects), or the error the fetch failed with. -/
inductive NetOutcome where
  | ok (body finalURL : String)
  | fail (e : RErr)
  deriving DecidableEq, Repr

/-- Result of a modelled `getContentsAsBytesWithContextAndFinalURL` call:
the returned body and final URL (or the error), and the list of URLs
fetched, in order. -/
structure RedirOut where
  res : Option (String × String)
  err : Option RErr
  fetched : List String
  deriving DecidableEq, Repr

/-- The `checkForJavaRedirect = false` leg of
`getContentsAsBytesWithContextAndFinalURL` (part_005 lines 45-83): one
fetch, no body scanning. -/
def getContentsNoScan (net : String → NetOutcome) (url : String) : RedirOut :=
  match net url with
  | .ok body finalURL => ⟨some (body, finalURL), none, [url]⟩
  | .fail e => ⟨none, some e, [url]⟩

/-- The `checkForJavaRedirect = true` leg (the entry point
`GetContentsAsBytesWithContextAndFinalURL`): fetch, scan the body, and on
a match recurse exactly once with scanning disabled. -/
def getContentsScan (net : String → NetOutcome) (url : String) : RedirOut :=
  match net url with
  | .fail e => ⟨none, some e, [url]⟩
  | .ok body finalURL =>
    match extractJavaScriptRedirect body with
    | (target, true) =>
      let inner := getContentsNoScan net target
      ⟨inner.res, inner.err, url :: inner.fetched⟩
    | (_, false) => ⟨some (body, finalURL), none, [url]⟩

/-! ## `JSONLStreamFetcher.FetchJSONLStream` (jsonl_stream_fetcher.go 57-148)

The polling loop holds a cursor `lastBytePosition` (initially 0), sends it
as a `Range: bytes=<cursor>-` header once positive, drains `206` bodies
line by line looking for an end sentinel, and otherwise advances the
cursor to `resp.ContentLength` and sleeps the poll interval (cancellably)
before the next poll.  `ContentLength` is an `int64` (it can be `-1` when
unknown), so the cursor is an `Int`. -/

/-- One scanned line of a 206 body: its text and the outcome of
`json.Unmarshal` into `EndMessage` (an external-library oracle): `none`
for a parse error, `some t` for success with `Type` field `t`. -/
structure StreamLine where
  text : String
  endParse : Option String := none
  deriving DecidableEq, Repr

/-- Does this line terminate the stream?  (lines 104-115): it starts with
the end-sentinel prefix and unmarshals with `Type == "end"`. -/
def isEndSentinel (l : StreamLine) : Bool :=
  goStartsWith l.text "\x7b\"type\":\"end\"" && l.endParse = some "end"

/-- Does draining these scanned lines hit an end sentinel? -/
def drainHitsEnd : List StreamLine → Bool
  | [] => false
  | l :: rest => isEndSentinel l || drainHitsEnd rest

/-- One poll's oracle data: the status code, the successfully scanned
lines of the body, whether the scanner stopped with an error afterwards,
the response's reported `ContentLength`, and whether the context gets
canceled during the poll sleep that would follow. -/
structure PollStep where
  status : Nat
  lines : List StreamLine := []
  scanErr : Bool := false
  contentLength : Int := 0
  canceledDuringSleep : Bool := false
  deriving DecidableEq, Repr

/-- How a modelled stream run ended. -/
inductive StreamEnd where
  | endSentinel
  | scanError
  | fullBody200
  | errorStatus
  | canceled
  | exhausted
  deriving DecidableEq, Repr

/-- Observable history of a stream run: the cursor value at each poll, the
`Range` offset sent with each poll (`none` when the cursor is not yet
positive), and how the run ended (`exhausted` = the finite oracle trace
ran out, a model artifact). -/
structure StreamOut where
  cursors : List Int
  ranges : List (Option Int)
  final : StreamEnd
  deriving DecidableEq, Repr

/-- The polling loop (lines 65-144), one `PollStep` per iteration.
A 206 reply: drain; an end sentinel returns; a scan error returns;
otherwise set the cursor to `resp.ContentLength` and sleep (cancellable).
A 200 reply forwards the whole body and returns; any other status
returns. -/
def fetchJSONLLoop : List PollStep → Int → StreamOut
  | [], _ => ⟨[], [], .exhausted⟩
  | s :: rest, cursor =>
    let rng : Option Int := if 0 < cursor then some cursor else none
    let cont : StreamOut :=
      if s.status = 206 then
        if drainHitsEnd s.lines = true then ⟨[], [], .endSentinel⟩
        else if s.scanErr = true then ⟨[], [], .scanError⟩
        else if s.canceledDuringSleep = true then ⟨[], [], .canceled⟩
        else fetchJSONLLoop rest s.contentLength
      else if s.status = 200 then ⟨[], [], .fullBody200⟩
      else ⟨[], [], .errorStatus⟩
    ⟨cursor :: cont.cursors, rng :: cont.ranges, cont.final⟩

/-- `FetchJSONLStream`: the loop starts with `lastBytePosition = 0`. -/
def runFetchJSONLStream (trace : List PollStep) : StreamOut :=
  fetchJSONLLoop trace 0

/-! ## Derived notions used by the claims -/

/-- The policy-suppressed errors of `GetResponse`: the 404 not-found-no-retry
error of the main loop, and the 404/422 `StatusCodeError`s produced inside
the network-outage recovery loop (the only sites where `GetResponse`
builds a `StatusCodeError`). -/
def isPolicySuppressed : RErr → Bool
  | .notFoundNoRetry _ => true
  | .statusCode _ _ _ => true
  | _ => false

/-- C10's property of a `GetResponse` run: whenever the run returned an
error, either the error is policy-suppressed and the returned response is
present with its body still open (its id is not among the closed bodies),
or the error is not policy-suppressed and the returned response is nil. -/
def C10Prop (out : RunOut) : Prop :=
  ∀ (ro : Option HttpResponse) (e : RErr), out.result = some (ro, some e) →
    (isPolicySuppressed e = true →
      ∃ resp, ro = some resp ∧ resp.bodyId ∉ out.closed)
    ∧ (isPolicySuppressed e = false → ro = none)

/-- The reported content lengths of the `206` polls of a stream trace, in
order. -/
def pollContentLengths (trace : List PollStep) : List Int :=
  trace.filterMap fun s => if s.status = 206 then some s.contentLength else none

/-! ## Concrete scenarios used by counterexamples and witnesses -/

/-- A transport error whose text marks a dial-level timeout (the signature
`IsPossibleNetworkOrDNSIssueErr` looks for). -/
def dialTimeoutErr : GoError :=
  { msg := "Get \"https://sec.example/doc\": dial tcp 23.1.2.3:443: i/o timeout" }

/-- SEC-style configuration: `noRetry404` set, no outage-recovery policy. -/
def cfg404 : RetryConfig :=
  { maxRetries := 7, backoffFactor := 10, noRetry404 := true }

/-- Every attempt yields a 404 transport success. -/
def envAll404 : Env :=
  { attempt := fun _ => { result := .success 404 } }

/-- `noRetry422` set, two attempts, no outage-recovery policy. -/
def cfg422 : RetryConfig :=
  { maxRetries := 2, backoffFactor := 3, noRetry422 := true }

/-- Every attempt yields a 422 transport success. -/
def envAll422 : Env :=
  { attempt := fun _ => { result := .success 422 } }

/-- Plain two-attempt configuration with no special policies. -/
def cfgPlain2 : RetryConfig :=
  { maxRetries := 2, backoffFactor := 3 }

/-- Every attempt yields a 500 transport success. -/
def envAll500 : Env :=
  { attempt := fun _ => { result := .success 500 } }

/-- A `GetResponse` environment whose first attempt is a 500 and whose
second attempt succeeds with a 200. -/
def env500Then200 : Env :=
  { attempt := fun i => if i = 0 then { result := .success 500 } else { result := .success 200 } }

/-- A fetch environment where each inner `GetResponse` needs both attempts
(500 then 200) and each successful body read fails with an http2 stream
error, triggering the outer retry of `fetchContentsAsBytes`. -/
def fenvStreamErr : FetchEnv :=
  { call := fun _ => env500Then200,
    readResult := fun _ => .fail { msg := "stream error: stream ID 5; INTERNAL_ERROR" } }

/-- Outage-recovery configuration: 300-tick recovery interval, 21600-tick
recovery budget. -/
def cfgRecovery : RetryConfig :=
  { maxRetries := 5, backoffFactor := 3, resolveNetworkUnavailable := true,
    networkUnavailableBackOff := 300, networkUnavailableMaxWait := 21600 }

/-- Outage-recovery configuration with `noRetry422` also set (redirect
chasing mode). -/
def cfgRecovery422 : RetryConfig :=
  { cfgRecovery with noRetry422 := true }

/-- The two-page network of the redirect-chasing scenario: each page's body
is a meta-refresh redirect to the other. -/
def netTwoPages : String → NetOutcome := fun u =>
  if u = "http://a/x" then
    .ok "<meta http-equiv=\"refresh\" content=\"0;URL=http://b/y\">" "http://a/x"
  else if u = "http://b/y" then
    .ok "<meta http-equiv=\"refresh\" content=\"0;URL=http://a/x\">" "http://b/y"
  else .fail .contextCanceled

/-- A stream trace whose second `206` response reports a smaller content
length (the size of the newly served chunk) than the first. -/
def traceShrinking : List PollStep :=
  [{ status := 206, contentLength := 100 }, { status := 206, contentLength := 5 },
   { status := 206, contentLength := 5 }]

/-- A stream trace whose `206` content lengths are non-decreasing. -/
def traceGrowing : List PollStep :=
  [{ status := 206, contentLength := 100 }, { status := 206, contentLength := 200 }]

/-! # Theorems -/

/-- A number strictly above every element of a list is not an element. -/
theorem not_mem_of_all_lt {l : List Nat} {n : Nat} (h : ∀ x ∈ l, x < n) : n ∉ l :=
  fun hmem => lt_irrefl n (h n hmem)

/-- C1 — code bug.  `IsNetworkUnavailable` returns the result of
`isNetworkAvailableCheck()` without negating it, so for an error bearing
the dial-timeout signature it reports `false` ("not unavailable") exactly
when **all** probes fail, and `true` ("unavailable") as soon as **any**
probe succeeds — the opposite of the claim (and of the function's own name
and doc comment).  This theorem evaluates the code at the failing input:
a dial-timeout error with every probe failing yields `false`, and the same
error with the Google probe succeeding yields `true`. -/
theorem c1_probe_polarity_eval :
    isPossibleNetworkOrDNSIssueErr (some dialTimeoutErr) = true
    ∧ isNetworkUnavailable (some dialTimeoutErr) (fun _ => false) = false
    ∧ isNetworkUnavailable (some dialTimeoutErr) (fun u => u == "https://www.google.com") = true :=
  ⟨by decide, by decide, by decide⟩

/-- C8 — confirmed.  The backoff delay is `backoffFactor * 2^attempt`,
except that a non-nil last response with status 429 whose configured
long-429 backoff strictly exceeds the computed value makes the long
backoff be used verbatim; in particular a computed delay of 40 at attempt
index 3 with a long-429 backoff of 601 waits exactly 601. -/
theorem c8_backoff_delay :
    (∀ (r : RetryConfig) (i : Nat) (respStatus : Option Nat),
        backoffDuration r i respStatus =
          if respStatus = some 429 ∧ r.backoffFactor * 2 ^ i < r.longBackOffOn429
          then r.longBackOffOn429 else r.backoffFactor * 2 ^ i)
    ∧ backoffDuration { maxRetries := 7, backoffFactor := 5, longBackOffOn429 := 601 } 3 (some 429) = 601 := by
  constructor
  · intro r i s
    simp only [backoffDuration, Nat.shiftLeft_eq, one_mul]
  · decide

/-- C5 — counterexample.  The sleep inside the network-outage recovery
loop is `time.Sleep(min(remaining, recoveryInterval))`: with the recovery
configuration (interval 300), a remaining budget of 600 and the context
canceled at instant 10, the sleep still unblocks only at instant 300 — it
does not return promptly on cancellation, refuting the claim that this
suspend point observes the cancellation signal. -/
theorem c5_counterexample :
    recoverySleep cfgRecovery 600 0 (some 10) = 300
    ∧ ¬ recoverySleep cfgRecovery 600 0 (some 10) ≤ 10 := by
  decide

/-- C5 — amended.  The rate-limiter wait, the backoff sleep and the stream
poll sleep observe the governing context and return promptly (at the
cancellation instant, with the cancellation outcome) when the context is
canceled during the wait; the network-outage recovery sleep does not: it
is an uninterruptible `time.Sleep` that always unblocks only after the
full `min(remainingBudget, recoveryInterval)`, regardless of
cancellation. -/
theorem c5_amended :
    (∀ (r : RetryConfig) (a : Nat) (s : Option Nat) (now t : Nat),
        t < now + backoffDuration r a s → backoffWait r a s now (some t) = (t, true))
    ∧ (∀ (p now t : Nat), t < now + p → pollSleep p now (some t) = (t, true))
    ∧ (∀ (now w t : Nat), t < now + w → limiterWait now w (some t) = (t, true))
    ∧ (∀ (r : RetryConfig) (remaining now : Nat) (c : Option Nat),
        recoverySleep r remaining now c = now + min remaining r.networkUnavailableBackOff) := by
  refine ⟨fun r a s now t h => ?_, fun p now t h => ?_, fun now w t h => ?_,
    fun r rem now c => rfl⟩
  · simp [backoffWait, selectTimerOrCtxDone, if_pos h]
  · simp [pollSleep, selectTimerOrCtxDone, if_pos h]
  · simp [limiterWait, selectTimerOrCtxDone, if_pos h]

/-- Witness for C5's amended theorem at concrete instants. -/
theorem c5_amended_witness :
    backoffWait cfgRecovery 0 none 0 (some 1) = (1, true)
    ∧ pollSleep 5 0 (some 2) = (2, true)
    ∧ limiterWait 0 5 (some 2) = (2, true)
    ∧ recoverySleep cfgRecovery 600 0 (some 10)
        = 0 + min 600 cfgRecovery.networkUnavailableBackOff :=
  ⟨c5_amended.1 cfgRecovery 0 none 0 1 (by decide), c5_amended.2.1 5 0 2 (by decide),
   c5_amended.2.2.1 0 5 2 (by decide), c5_amended.2.2.2 cfgRecovery 600 0 (some 10)⟩

/-- The first cursor recorded by a nonempty polling run is the cursor the
run starts with. -/
theorem fetchJSONLLoop_cursors_head (p : PollStep) (ps : List PollStep) (cur : Int) :
    (fetchJSONLLoop (p :: ps) cur).cursors.head? = some cur := by
  simp [fetchJSONLLoop]

/-- If the `206` content lengths along the trace are pairwise
non-decreasing and all at least the starting cursor, the recorded cursor
sequence is non-decreasing. -/
theorem fetchJSONLLoop_chain : ∀ (trace : List PollStep) (cur : Int),
    (pollContentLengths trace).Pairwise (· ≤ ·) →
    (∀ x ∈ pollContentLengths trace, cur ≤ x) →
    List.Chain' (· ≤ ·) (fetchJSONLLoop trace cur).cursors
  | [], cur, _, _ => by simp [fetchJSONLLoop]
  | s :: rest, cur, hp, hc => by
    by_cases h206 : s.status = 206
    · have hcls : pollContentLengths (s :: rest)
          = s.contentLength :: pollContentLengths rest := by
        simp [pollContentLengths, h206]
      rw [hcls] at hp hc
      obtain ⟨hhead, hrest⟩ := List.pairwise_cons.mp hp
      cases hend : drainHitsEnd s.lines with
      | true => rw [fetchJSONLLoop]; simp [h206, hend]
      | false =>
        cases hscan : s.scanErr with
        | true => rw [fetchJSONLLoop]; simp [h206, hend, hscan]
        | false =>
          cases hcanc : s.canceledDuringSleep with
          | true => rw [fetchJSONLLoop]; simp [h206, hend, hscan, hcanc]
          | false =>
            have ih := fetchJSONLLoop_chain rest s.contentLength hrest hhead
            have hcont : (fetchJSONLLoop (s :: rest) cur).cursors
                = cur :: (fetchJSONLLoop rest s.contentLength).cursors := by
              rw [fetchJSONLLoop]; simp [h206, hend, hscan, hcanc]
            rw [hcont, List.chain'_cons']
            refine ⟨?_, ih⟩
            intro y hy
            cases rest with
            | nil => simp [fetchJSONLLoop] at hy
            | cons q qs =>
              rw [fetchJSONLLoop_cursors_head] at hy
              simp at hy
              subst hy
              exact hc s.contentLength (by simp)
    · rw [fetchJSONLLoop]
      by_cases h200 : s.status = 200 <;> simp [h206, h200]

/-- C9 — counterexample.  A run over two `206` polls whose reported
content lengths are 100 and then 5 (the second response reporting the
size of the newly served chunk) drives the cursor through `0, 100, 5`,
which is not monotonically non-decreasing: the code sets the cursor *to*
`resp.ContentLength`, it does not advance it monotonically. -/
theorem c9_counterexample :
    (runFetchJSONLStream traceShrinking).cursors = [0, 100, 5]
    ∧ ¬ List.Chain' (· ≤ ·) (runFetchJSONLStream traceShrinking).cursors := by
  have h : (runFetchJSONLStream traceShrinking).cursors = [0, 100, 5] := by decide
  refine ⟨h, fun hch => ?_⟩
  rw [h] at hch
  exact absurd (List.chain'_cons.mp (List.chain'_cons.mp hch).2).1 (by decide)

/-- C9 — amended.  After draining a `206` body without an end sentinel the
cursor is set to that response's reported content length; consequently
the cursor sequence (starting at 0) is monotonically non-decreasing
provided the `206` responses' reported content lengths are non-negative
and non-decreasing along the trace — without that proviso it can
decrease. -/
theorem c9_amended (trace : List PollStep)
    (hmono : (pollContentLengths trace).Pairwise (· ≤ ·))
    (hpos : ∀ x ∈ pollContentLengths trace, 0 ≤ x) :
    List.Chain' (· ≤ ·) (runFetchJSONLStream trace).cursors :=
  fetchJSONLLoop_chain trace 0 hmono hpos

/-- Witness for C9's amended theorem: a trace with non-decreasing reported
content lengths yields a non-decreasing cursor sequence. -/
theorem c9_amended_witness :
    List.Chain' (· ≤ ·) (runFetchJSONLStream traceGrowing).cursors :=
  c9_amended traceGrowing (by decide) (by decide)

/-- C7 — confirmed.  When the fetched body matches a client-side redirect
pattern, the chaser performs exactly one follow-on fetch of the extracted
target with scanning disabled and returns that fetch's body and final URL
(or error) as the outcome; the URLs fetched are exactly the original and
the target, so a redirect inside the second body is never followed and
client-side redirect chasing is bounded to one extra hop. -/
theorem c7_redirect_one_extra_hop (net : String → NetOutcome)
    (url body finalURL target : String)
    (hfetch : net url = .ok body finalURL)
    (hmatch : extractJavaScriptRedirect body = (target, true)) :
    getContentsScan net url =
      { res := (getContentsNoScan net target).res,
        err := (getContentsNoScan net target).err,
        fetched := [url, target] } := by
  simp only [getContentsScan, hfetch, hmatch]
  cases h2 : net target <;> simp [getContentsNoScan, h2]

/-- Witness for C7: a page whose body is a meta-refresh to a second page
whose body is itself a meta-refresh back to the first; the second
redirect is not followed and exactly the two URLs are fetched. -/
theorem c7_redirect_one_extra_hop_witness :
    (getContentsScan netTwoPages "http://a/x"
        = { res := (getContentsNoScan netTwoPages "http://b/y").res,
            err := (getContentsNoScan netTwoPages "http://b/y").err,
            fetched := ["http://a/x", "http://b/y"] })
    ∧ (extractJavaScriptRedirect
        "<meta http-equiv=\"refresh\" content=\"0;URL=http://a/x\">").2 = true :=
  ⟨c7_redirect_one_extra_hop netTwoPages "http://a/x"
      "<meta http-equiv=\"refresh\" content=\"0;URL=http://b/y\">" "http://a/x" "http://b/y"
      (by decide) (by decide),
   by decide⟩

/-- The recovery loop performs no main-loop attempts. -/
theorem recoveryLoop_mainAttempts (r : RetryConfig) (url : String) :
    ∀ (es : List RecEntry) (el : Nat) (acc : Acc),
    (recoveryLoop r url es el acc).mainAttempts = acc.mainAttempts
  | [], el, acc => by rw [recoveryLoop]; split <;> rfl
  | ⟨.success st, tel⟩ :: rest, el, acc => by
    simp only [recoveryLoop]
    split
    · rfl
    · split
      · rfl
      · split
        · rfl
        · split
          · rfl
          · exact recoveryLoop_mainAttempts r url rest _ _
  | ⟨.failure ge, tel⟩ :: rest, el, acc => by
    simp only [recoveryLoop]
    split
    · rfl
    · split
      · rfl
      · exact recoveryLoop_mainAttempts r url rest _ _

/-- `c2_amended` helper: the main loop of `GetResponse` returns a
404/no-retry result on its very first attempt when that attempt is a 404
transport success and the policy is set. -/
theorem getResponseAux_first404 (r : RetryConfig) (url : String) (env : Env)
    (fuel i : Nat) (le : Option GoError) (acc : Acc)
    (h404 : r.noRetry404 = true) (hfirst : (env.attempt i).result = .success 404) :
    getResponseAux r url env (fuel + 1) i le acc
      = ⟨some (some ⟨404, acc.nextId⟩, some (.notFoundNoRetry url)),
          acc.mainAttempts + 1, acc.recAttempts, acc.closed⟩ := by
  simp only [getResponseAux]
  rw [hfirst]
  simp [h404]

/-- C2 — counterexample.  With `noRetry404` set and the first attempt a
404, `GetResponse` returns the response (body id 0) together with the
not-found-no-retry error, but the list of closed bodies is empty: the code
returns at sec_request.go 242-244 *before* the `resp.Body.Close()` call,
so the body is not released before returning — refuting that part of the
claim (the one-attempt and distinguished-error parts do hold). -/
theorem c2_counterexample :
    (runGetResponse cfg404 "https://sec.example/doc" envAll404).result
      = some (some ⟨404, 0⟩, some (.notFoundNoRetry "https://sec.example/doc"))
    ∧ (runGetResponse cfg404 "https://sec.example/doc" envAll404).mainAttempts = 1
    ∧ (runGetResponse cfg404 "https://sec.example/doc" envAll404).closed = [] := by
  decide

/-- C2 — amended.  With `noRetry404` set, if the first attempt's response
has status 404 then exactly one attempt occurs and the distinguished
not-found-no-retry error is returned immediately together with the
response, whose body is left open (the caller receives the response and
its cancel function and is responsible for releasing it). -/
theorem c2_amended (r : RetryConfig) (url : String) (env : Env)
    (h404 : r.noRetry404 = true) (hlim : env.limiterWaitErr = none)
    (hfirst : (env.attempt 0).result = .success 404) (hmax : 1 ≤ r.maxRetries) :
    (runGetResponse r url env).result
        = some (some ⟨404, 0⟩, some (.notFoundNoRetry url))
      ∧ (runGetResponse r url env).mainAttempts = 1
      ∧ 0 ∉ (runGetResponse r url env).closed := by
  obtain ⟨n, hn⟩ : ∃ n, r.maxRetries = n + 1 := ⟨r.maxRetries - 1, by omega⟩
  have hrun : runGetResponse r url env = getResponseAux r url env r.maxRetries 0 none {} := by
    rw [runGetResponse]
    cases hr : r.isRateLimited <;> simp [hlim]
  rw [hrun, hn, getResponseAux_first404 r url env n 0 none {} h404 hfirst]
  simp

/-- Witness for C2's amended theorem: the SEC configuration with every
attempt a 404. -/
theorem c2_amended_witness :
    (runGetResponse cfg404 "https://sec.example/doc" envAll404).result
        = some (some ⟨404, 0⟩, some (.notFoundNoRetry "https://sec.example/doc"))
      ∧ (runGetResponse cfg404 "https://sec.example/doc" envAll404).mainAttempts = 1
      ∧ 0 ∉ (runGetResponse cfg404 "https://sec.example/doc" envAll404).closed :=
  c2_amended cfg404 "https://sec.example/doc" envAll404 rfl rfl rfl (by decide)

/-- C3 — counterexample.  With `noRetry422` set and every attempt a 422
transport success (and no outage-recovery policy), the main retry loop
does *not* stop: both configured attempts are consumed and the call ends
with the max-retries error, not a distinguished unprocessable-entity
error — the main loop of `GetResponse` has no 422 check at all, refuting
the claim's "in the main retry loop" part. -/
theorem c3_counterexample :
    (runGetResponse cfg422 "https://sec.example/doc" envAll422).result
      = some (none, some (.maxRetriesReached none))
    ∧ (runGetResponse cfg422 "https://sec.example/doc" envAll422).mainAttempts = 2 := by
  decide

/-- C3 — amended.  With `noRetry422` set, a 422 response stops the call
immediately with the distinguished unprocessable-entity `StatusCodeError`
only *inside the network-outage recovery loop*: there, a 422 attempt
within budget returns at once, consuming exactly one recovery attempt and
leaving the trailing trace untouched, with the response (body open)
returned alongside the error.  In the main retry loop a 422 is retried
like any other non-2xx status. -/
theorem c3_amended (r : RetryConfig) (url : String) (e : RecEntry)
    (rest : List RecEntry) (elapsed : Nat) (acc : Acc)
    (h422 : r.noRetry422 = true) (hst : e.result = .success 422)
    (hbudget : elapsed < r.networkUnavailableMaxWait) :
    recoveryLoop r url (e :: rest) elapsed acc
      = ⟨some (some ⟨422, acc.nextId⟩,
            some (.statusCode 422 url "422 Unprocessable Entity")),
          acc.mainAttempts, acc.recAttempts + 1, acc.closed⟩ := by
  rw [recoveryLoop, if_neg (by omega)]
  simp only [hst]
  simp [h422]

/-- Witness for C3's amended theorem: a 422 on the first recovery attempt
of the recovery configuration. -/
theorem c3_amended_witness :
    recoveryLoop cfgRecovery422 "https://sec.example/doc"
        [{ result := .success 422 }] 0 {}
      = ⟨some (some ⟨422, 0⟩,
            some (.statusCode 422 "https://sec.example/doc" "422 Unprocessable Entity")),
          0, 1, []⟩ :=
  c3_amended cfgRecovery422 "https://sec.example/doc" { result := .success 422 } [] 0 {}
    rfl rfl (by decide)

/-- The main loop, when every scheduled attempt is a transport success
with a status that is neither 2xx nor a policy-suppressed 404, and no
backoff is canceled and no outage-recovery policy is configured, runs to
exhaustion and reports the max-retries error wrapping `nil`. -/
theorem getResponseAux_exhaust (r : RetryConfig) (url : String) (env : Env)
    (hres : r.resolveNetworkUnavailable = false) :
    ∀ (fuel i : Nat) (acc : Acc),
    (∀ j, i ≤ j → j < i + fuel →
        (env.attempt j).backoffCanceled = false ∧
        ∃ st, (env.attempt j).result = .success st ∧ (st < 200 ∨ 300 ≤ st)
          ∧ ¬(st = 404 ∧ r.noRetry404 = true)) →
    (getResponseAux r url env fuel i none acc).result
      = some (none, some (.maxRetriesReached none))
  | 0, i, acc, _ => by rw [getResponseAux]
  | fuel + 1, i, acc, h => by
    obtain ⟨hbc, st, hst, hst2, hst3⟩ := h i (le_refl i) (by omega)
    simp only [getResponseAux]
    rw [hst]
    simp only [hst3, if_false, if_neg (by omega : ¬(200 ≤ st ∧ st < 300)),
      if_neg (by simp [hres] : ¬(r.resolveNetworkUnavailable = true ∧ i = r.maxRetries - 1)),
      if_neg (by simp [hbc] : ¬((env.attempt i).backoffCanceled = true))]
    exact getResponseAux_exhaust r url env hres fuel (i + 1) _
      (fun j h1 h2 => h j (by omega) (by omega))

/-- C6 — counterexample.  With every attempt a 500 transport success, the
call exhausts its retries and returns the max-retries error wrapping
`nil` (`%w` applied to a nil error): the wrapped cause is absent, and in
particular no `StatusCodeError` is wrapped — the main loop never builds a
`StatusCodeError`.  This refutes "the wrapped cause is a StatusCodeError
... (the cause is never absent)". -/
theorem c6_counterexample :
    (runGetResponse cfgPlain2 "https://sec.example/doc" envAll500).result
      = some (none, some (.maxRetriesReached none))
    ∧ ∀ (code : Nat) (u m : String),
        (runGetResponse cfgPlain2 "https://sec.example/doc" envAll500).result
          ≠ some (none, some (.statusCode code u m)) := by
  have h : (runGetResponse cfgPlain2 "https://sec.example/doc" envAll500).result
      = some (none, some (.maxRetriesReached none)) := by decide
  exact ⟨h, fun code u m hc => by rw [h] at hc; simp at hc⟩

/-- C6 — amended.  When `GetResponse` exhausts all `maxRetries` attempts
without an early exit it returns a "max retries" error wrapping the last
observed *transport* error; when the last attempt was a transport success
with a non-2xx status (and no special policy applied), that transport
error is `nil`, so the wrapped cause is absent — no `StatusCodeError` is
produced outside the network-outage recovery loop. -/
theorem c6_amended (r : RetryConfig) (url : String) (env : Env)
    (hlim : env.limiterWaitErr = none) (hres : r.resolveNetworkUnavailable = false)
    (hatts : ∀ j, j < r.maxRetries →
        (env.attempt j).backoffCanceled = false ∧
        ∃ st, (env.attempt j).result = .success st ∧ (st < 200 ∨ 300 ≤ st)
          ∧ ¬(st = 404 ∧ r.noRetry404 = true)) :
    (runGetResponse r url env).result = some (none, some (.maxRetriesReached none)) := by
  have hrun : runGetResponse r url env = getResponseAux r url env r.maxRetries 0 none {} := by
    rw [runGetResponse]
    cases hr : r.isRateLimited <;> simp [hlim]
  rw [hrun]
  exact getResponseAux_exhaust r url env hres r.maxRetries 0 {}
    (fun j h1 h2 => hatts j (by omega))

/-- Witness for C6's amended theorem: two 500 responses. -/
theorem c6_amended_witness :
    (runGetResponse cfgPlain2 "https://sec.example/doc" envAll500).result
      = some (none, some (.maxRetriesReached none)) :=
  c6_amended cfgPlain2 "https://sec.example/doc" envAll500 rfl rfl
    (fun j _ => ⟨rfl, 500, rfl, by omega, by simp⟩)

/-- Every result of the recovery loop satisfies C10's property, given that
all closed body ids are below the next fresh id. -/
theorem recoveryLoop_c10 (r : RetryConfig) (url : String) :
    ∀ (es : List RecEntry) (el : Nat) (acc : Acc),
    (∀ x ∈ acc.closed, x < acc.nextId) →
    C10Prop (recoveryLoop r url es el acc)
  | [], el, acc, hinv => by
    rw [recoveryLoop]
    split
    · intro ro e heq
      cases heq
      exact ⟨fun hf => by simp [isPolicySuppressed] at hf, fun _ => rfl⟩
    · intro ro e heq
      cases heq
  | ⟨.success st, tel⟩ :: rest, el, acc, hinv => by
    have hinv1 : ∀ x ∈ acc.closed, x < acc.nextId + 1 :=
      fun x hx => Nat.lt_succ_of_lt (hinv x hx)
    have hinv2 : ∀ x ∈ acc.nextId :: acc.closed, x < acc.nextId + 1 := by
      intro x hx
      rcases List.mem_cons.mp hx with h | h
      · omega
      · exact Nat.lt_succ_of_lt (hinv x h)
    simp only [recoveryLoop]
    split
    · intro ro e heq
      cases heq
      exact ⟨fun hf => by simp [isPolicySuppressed] at hf, fun _ => rfl⟩
    · split
      · intro ro e heq
        cases heq
        exact ⟨fun _ => ⟨⟨st, acc.nextId⟩, rfl, not_mem_of_all_lt hinv⟩,
          fun hf => by simp [isPolicySuppressed] at hf⟩
      · split
        · intro ro e heq
          cases heq
          exact ⟨fun _ => ⟨⟨st, acc.nextId⟩, rfl, not_mem_of_all_lt hinv⟩,
            fun hf => by simp [isPolicySuppressed] at hf⟩
        · split
          · intro ro e heq
            cases heq
          · exact recoveryLoop_c10 r url rest _ _ hinv2
  | ⟨.failure ge, tel⟩ :: rest, el, acc, hinv => by
    have hinv1 : ∀ x ∈ acc.closed, x < acc.nextId + 1 :=
      fun x hx => Nat.lt_succ_of_lt (hinv x hx)
    simp only [recoveryLoop]
    split
    · intro ro e heq
      cases heq
      exact ⟨fun hf => by simp [isPolicySuppressed] at hf, fun _ => rfl⟩
    · split
      · intro ro e heq
        cases heq
        exact ⟨fun hf => by simp [isPolicySuppressed] at hf, fun _ => rfl⟩
      · exact recoveryLoop_c10 r url rest _ _ hinv1

/-- Every result of the main retry loop satisfies C10's property, given
that all closed body ids are below the next fresh id. -/
theorem getResponseAux_c10 (r : RetryConfig) (url : String) (env : Env) :
    ∀ (fuel i : Nat) (le : Option GoError) (acc : Acc),
    (∀ x ∈ acc.closed, x < acc.nextId) →
    C10Prop (getResponseAux r url env fuel i le acc)
  | 0, i, le, acc, hinv => by
    rw [getResponseAux]
    intro ro e heq
    cases heq
    exact ⟨fun hf => by simp [isPolicySuppressed] at hf, fun _ => rfl⟩
  | fuel + 1, i, le, acc, hinv => by
    have hinv1 : ∀ x ∈ acc.closed, x < acc.nextId + 1 :=
      fun x hx => Nat.lt_succ_of_lt (hinv x hx)
    have hinv2 : ∀ x ∈ acc.nextId :: acc.closed, x < acc.nextId + 1 := by
      intro x hx
      rcases List.mem_cons.mp hx with h | h
      · omega
      · exact Nat.lt_succ_of_lt (hinv x h)
    rw [getResponseAux]
    cases hres : (env.attempt i).result with
    | success st =>
      simp only
      split
      · intro ro e heq
        cases heq
        exact ⟨fun _ => ⟨⟨st, acc.nextId⟩, rfl, not_mem_of_all_lt hinv⟩,
          fun hf => by simp [isPolicySuppressed] at hf⟩
      · split
        · intro ro e heq
          cases heq
        · split
          · exact getResponseAux_c10 r url env fuel (i + 1) none _ hinv2
          · split
            · intro ro e heq
              cases heq
              exact ⟨fun hf => by simp [isPolicySuppressed] at hf, fun _ => rfl⟩
            · exact getResponseAux_c10 r url env fuel (i + 1) none _ hinv2
    | failure ge =>
      simp only
      split
      · intro ro e heq
        cases heq
        exact ⟨fun hf => by simp [isPolicySuppressed] at hf, fun _ => rfl⟩
      · split
        · split
          · exact recoveryLoop_c10 r url env.recTrace 0 _ hinv1
          · exact getResponseAux_c10 r url env fuel (i + 1) (some ge) _ hinv1
        · split
          · intro ro e heq
            cases heq
            exact ⟨fun hf => by simp [isPolicySuppressed] at hf, fun _ => rfl⟩
          · exact getResponseAux_c10 r url env fuel (i + 1) (some ge) _ hinv1

/-- C10 — confirmed.  Whenever `GetResponse` returns a policy-suppressed
error (the 404 not-found-no-retry error of the main loop, or the 404/422
`StatusCodeError`s produced inside the network-outage recovery loop), the
returned response is non-nil and its body is still open, so the caller
receives both a response and an error at once; on every other error
return (transport error, cancellation, limiter failure, recovery budget
exhaustion, retry exhaustion) the returned response is nil. -/
theorem c10_policy_errors_resp_open (r : RetryConfig) (url : String) (env : Env)
    (ro : Option HttpResponse) (e : RErr)
    (heq : (runGetResponse r url env).result = some (ro, some e)) :
    (isPolicySuppressed e = true →
      ∃ resp, ro = some resp ∧ resp.bodyId ∉ (runGetResponse r url env).closed)
    ∧ (isPolicySuppressed e = false → ro = none) := by
  have h : C10Prop (runGetResponse r url env) := by
    rw [runGetResponse]
    split
    · cases hL : env.limiterWaitErr with
      | some ge =>
        intro ro e heq
        cases heq
        exact ⟨fun hf => by simp [isPolicySuppressed] at hf, fun _ => rfl⟩
      | none => exact getResponseAux_c10 r url env r.maxRetries 0 none {} (by simp)
    · exact getResponseAux_c10 r url env r.maxRetries 0 none {} (by simp)
  exact h ro e heq

/-- Witness for C10 at the 404/no-retry scenario: the policy-suppressed
error comes with the response whose body (id 0) is still open. -/
theorem c10_witness :
    (isPolicySuppressed (.notFoundNoRetry "https://sec.example/doc") = true →
      ∃ resp, (some (⟨404, 0⟩ : HttpResponse)) = some resp
        ∧ resp.bodyId ∉ (runGetResponse cfg404 "https://sec.example/doc" envAll404).closed)
    ∧ (isPolicySuppressed (.notFoundNoRetry "https://sec.example/doc") = false →
        (some (⟨404, 0⟩ : HttpResponse)) = none) :=
  c10_policy_errors_resp_open cfg404 "https://sec.example/doc" envAll404
    (some ⟨404, 0⟩) (.notFoundNoRetry "https://sec.example/doc") (by decide)

/-- The main loop performs at most `fuel` further attempts. -/
theorem getResponseAux_main_le (r : RetryConfig) (url : String) (env : Env) :
    ∀ (fuel i : Nat) (le : Option GoError) (acc : Acc),
    (getResponseAux r url env fuel i le acc).mainAttempts ≤ acc.mainAttempts + fuel
  | 0, i, le, acc => by rw [getResponseAux]; dsimp only; omega
  | fuel + 1, i, le, acc => by
    rw [getResponseAux]
    cases hres : (env.attempt i).result with
    | success st =>
      dsimp only
      split
      · dsimp only; omega
      · split
        · dsimp only; omega
        · split
          · refine le_trans (getResponseAux_main_le r url env fuel (i + 1) none _) ?_
            dsimp only; omega
          · split
            · dsimp only; omega
            · refine le_trans (getResponseAux_main_le r url env fuel (i + 1) none _) ?_
              dsimp only; omega
    | failure ge =>
      dsimp only
      split
      · dsimp only; omega
      · split
        · split
          · rw [recoveryLoop_mainAttempts]
            dsimp only; omega
          · refine le_trans (getResponseAux_main_le r url env fuel (i + 1) (some ge) _) ?_
            dsimp only; omega
        · split
          · dsimp only; omega
          · refine le_trans (getResponseAux_main_le r url env fuel (i + 1) (some ge) _) ?_
            dsimp only; omega

/-- `GetResponse` performs at most `maxRetries` main-loop attempts. -/
theorem runGetResponse_main_le (r : RetryConfig) (url : String) (env : Env) :
    (runGetResponse r url env).mainAttempts ≤ r.maxRetries := by
  have hz : ({} : Acc).mainAttempts = 0 := rfl
  rw [runGetResponse]
  split
  · cases hL : env.limiterWaitErr with
    | some ge => dsimp only; omega
    | none =>
      dsimp only
      have h := getResponseAux_main_le r url env r.maxRetries 0 none {}
      omega
  · have h := getResponseAux_main_le r url env r.maxRetries 0 none {}
    omega

/-- With a positive recovery interval, each recovery iteration consumes at
least one tick of the budget, so the recovery loop performs at most
`maxWait - elapsed` further attempts. -/
theorem recoveryLoop_rec_le (r : RetryConfig) (url : String)
    (hb : 1 ≤ r.networkUnavailableBackOff) :
    ∀ (es : List RecEntry) (el : Nat) (acc : Acc),
    (recoveryLoop r url es el acc).recAttempts
      ≤ acc.recAttempts + (r.networkUnavailableMaxWait - el)
  | [], el, acc => by rw [recoveryLoop]; split <;> (dsimp only; omega)
  | ⟨.success st, tel⟩ :: rest, el, acc => by
    simp only [recoveryLoop]
    split
    · dsimp only; omega
    · split
      · dsimp only; omega
      · split
        · dsimp only; omega
        · split
          · dsimp only; omega
          · refine le_trans (recoveryLoop_rec_le r url hb rest _ _) ?_
            dsimp only; omega
  | ⟨.failure ge, tel⟩ :: rest, el, acc => by
    simp only [recoveryLoop]
    split
    · dsimp only; omega
    · split
      · dsimp only; omega
      · refine le_trans (recoveryLoop_rec_le r url hb rest _ _) ?_
        dsimp only; omega

/-- With a positive recovery interval, a whole `GetResponse` run performs
at most `maxWait` recovery attempts. -/
theorem getResponseAux_rec_le (r : RetryConfig) (url : String) (env : Env)
    (hb : 1 ≤ r.networkUnavailableBackOff) :
    ∀ (fuel i : Nat) (le : Option GoError) (acc : Acc),
    (getResponseAux r url env fuel i le acc).recAttempts
      ≤ acc.recAttempts + r.networkUnavailableMaxWait
  | 0, i, le, acc => by rw [getResponseAux]; dsimp only; omega
  | fuel + 1, i, le, acc => by
    rw [getResponseAux]
    cases hres : (env.attempt i).result with
    | success st =>
      dsimp only
      split
      · dsimp only; omega
      · split
        · dsimp only; omega
        · split
          · refine le_trans (getResponseAux_rec_le r url env hb fuel (i + 1) none _) ?_
            dsimp only; omega
          · split
            · dsimp only; omega
            · refine le_trans (getResponseAux_rec_le r url env hb fuel (i + 1) none _) ?_
              dsimp only; omega
    | failure ge =>
      dsimp only
      split
      · dsimp only; omega
      · split
        · split
          · refine le_trans (recoveryLoop_rec_le r url hb env.recTrace 0 _) ?_
            dsimp only; omega
          · refine le_trans (getResponseAux_rec_le r url env hb fuel (i + 1) (some ge) _) ?_
            dsimp only; omega
        · split
          · dsimp only; omega
          · refine le_trans (getResponseAux_rec_le r url env hb fuel (i + 1) (some ge) _) ?_
            dsimp only; omega

/-- The second component of `attemptFetchContents` is the inner
`GetResponse` run. -/
theorem attemptFetchContents_snd (r : RetryConfig) (url : String)
    (fenv : FetchEnv) (k : Nat) :
    (attemptFetchContents r url fenv k).2 = runGetResponse r url (fenv.call k) := by
  rw [attemptFetchContents]
  split
  · rfl
  · rfl
  · rfl
  · split <;> rfl

/-- Each outer iteration of `fetchContentsAsBytes` adds at most
`maxRetries` main-loop attempts. -/
theorem fetchLoopAux_main_le (r : RetryConfig) (url : String) (fenv : FetchEnv) :
    ∀ (fuel k : Nat) (msg : String) (tm tr calls : Nat),
    (fetchLoopAux r url fenv fuel k msg tm tr calls).totalMainAttempts
      ≤ tm + fuel * r.maxRetries
  | 0, k, msg, tm, tr, calls => by rw [fetchLoopAux]; dsimp only; omega
  | fuel + 1, k, msg, tm, tr, calls => by
    have hout : (attemptFetchContents r url fenv k).2.mainAttempts ≤ r.maxRetries := by
      rw [attemptFetchContents_snd]
      exact runGetResponse_main_le r url (fenv.call k)
    rw [fetchLoopAux, Nat.succ_mul]
    cases hres : (attemptFetchContents r url fenv k).1 with
    | ok bytes => dsimp only; omega
    | exhausted => dsimp only; omega
    | fail m =>
      dsimp only
      split
      · split
        · dsimp only; omega
        · refine le_trans (fetchLoopAux_main_le r url fenv fuel (k + 1) m _ _ _) ?_
          dsimp only; omega
      · dsimp only; omega

/-- C4 — counterexample.  With `maxRetries = 2` and a body read that fails
with an http2 "stream error" after each successful two-attempt
`GetResponse`, a single `GetContents`-style fetch call issues 4 HTTP
attempts — more than the configured `maxRetries` — while performing zero
network-outage recovery attempts: `fetchContentsAsBytes` restarts
`GetResponse` (with its own fresh attempt budget) up to `maxRetries`
times on stream errors, so the claimed per-call bound fails. -/
theorem c4_counterexample :
    cfgPlain2.maxRetries = 2
    ∧ (runFetchContentsAsBytes cfgPlain2 "https://sec.example/doc"
        fenvStreamErr).totalMainAttempts = 4
    ∧ (runFetchContentsAsBytes cfgPlain2 "https://sec.example/doc"
        fenvStreamErr).totalRecAttempts = 0 :=
  ⟨rfl, by decide, by decide⟩

/-- C4 — amended.  Each `GetResponse` invocation issues at most
`maxRetries` main-loop attempts, and (for a positive recovery interval)
at most `maxWait` recovery attempts; a fetch-variant call
(`GetContents`, `GetContentsAsBytes`, `GetContentsAsBytesWithContext`)
may restart `GetResponse` up to `maxRetries` times on stream errors, so
its main-loop attempts are bounded by `maxRetries * maxRetries` rather
than `maxRetries`. -/
theorem c4_amended :
    (∀ (r : RetryConfig) (url : String) (env : Env),
        (runGetResponse r url env).mainAttempts ≤ r.maxRetries)
    ∧ (∀ (r : RetryConfig) (url : String) (fenv : FetchEnv),
        (runFetchContentsAsBytes r url fenv).totalMainAttempts
          ≤ r.maxRetries * r.maxRetries)
    ∧ (∀ (r : RetryConfig) (url : String) (env : Env),
        1 ≤ r.networkUnavailableBackOff →
        (runGetResponse r url env).recAttempts ≤ r.networkUnavailableMaxWait) := by
  refine ⟨runGetResponse_main_le, fun r url fenv => ?_, fun r url env hb => ?_⟩
  · have h := fetchLoopAux_main_le r url fenv r.maxRetries 0 "%!w(<nil>)" 0 0 0
    rw [runFetchContentsAsBytes]
    omega
  · have hz : ({} : Acc).recAttempts = 0 := rfl
    rw [runGetResponse]
    split
    · cases hL : env.limiterWaitErr with
      | some ge => dsimp only; omega
      | none =>
        dsimp only
        have h := getResponseAux_rec_le r url env hb r.maxRetries 0 none {}
        omega
    · have h := getResponseAux_rec_le r url env hb r.maxRetries 0 none {}
      omega

/-- Witness for C4's amended theorem at the concrete scenarios. -/
theorem c4_amended_witness :
    (runGetResponse cfgPlain2 "https://sec.example/doc" envAll500).mainAttempts
        ≤ cfgPlain2.maxRetries
    ∧ (runFetchContentsAsBytes cfgPlain2 "https://sec.example/doc"
          fenvStreamErr).totalMainAttempts
        ≤ cfgPlain2.maxRetries * cfgPlain2.maxRetries
    ∧ (runGetResponse cfgRecovery "https://sec.example/doc" envAll500).recAttempts
        ≤ cfgRecovery.networkUnavailableMaxWait :=
  ⟨c4_amended.1 cfgPlain2 "https://sec.example/doc" envAll500,
   c4_amended.2.1 cfgPlain2 "https://sec.example/doc" fenvStreamErr,
   c4_amended.2.2 cfgRecovery "https://sec.example/doc" envAll500 (by decide)⟩

end VmUser
